import Mathlib

/-!
Verification development for the smartCharging OCPP gateway
(`src/chargingService`).  Python code is shallowly embedded: JSON-ish
runtime values become the inductive `Val`, machine floats become `ℚ`,
dictionaries become association lists, raising code returns
`Except PyErr`, and stateful methods pass their state explicitly.
-/

namespace SmartCharging

/-- A Python/JSON runtime value as it flows through the gateway:
`None`, booleans, ints, floats (modelled as rationals), strings,
lists and string-keyed dicts. -/
inductive Val where
  | vnull
  | vbool (b : Bool)
  | vint (n : Int)
  | vfloat (q : ℚ)
  | vstr (s : String)
  | vlist (l : List Val)
  | vdict (d : List (String × Val))
deriving Inhabited

/-- Python exception classes that the embedded code can raise. -/
inductive PyErrKind where
  | typeError
  | keyError
  | valueError
  | attributeError
  | indexError
deriving DecidableEq

/-- A raised Python exception: its class and its `str(e)` message. -/
structure PyErr where
  kind : PyErrKind
  msg : String

/-- Numeric view of a value: Python compares `bool`, `int` and `float`
across types by value (`True == 1 == 1.0`). -/
def pyNum : Val → Option ℚ
  | .vbool b => some (if b then 1 else 0)
  | .vint n => some (n : ℚ)
  | .vfloat q => some q
  | _ => none

mutual

/-- Python `==` on runtime values: numeric cross-type comparison,
structural comparison of containers, `False` across unrelated types. -/
def pyEq : Val → Val → Bool
  | .vnull, .vnull => true
  | .vstr a, .vstr b => a = b
  | .vlist a, .vlist b => pyEqList a b
  | .vdict a, .vdict b => pyEqDict a b
  | a, b =>
    match pyNum a, pyNum b with
    | some x, some y => x = y
    | _, _ => false

/-- Elementwise Python `==` on lists. -/
def pyEqList : List Val → List Val → Bool
  | [], [] => true
  | a :: as, b :: bs => pyEq a b && pyEqList as bs
  | _, _ => false

/-- Itemwise Python `==` on dicts (embedded dicts keep insertion order
with unique keys, so itemwise comparison matches Python here). -/
def pyEqDict : List (String × Val) → List (String × Val) → Bool
  | [], [] => true
  | (k₁, a) :: as, (k₂, b) :: bs => k₁ = k₂ && pyEq a b && pyEqDict as bs
  | _, _ => false

end

/-- Association-list lookup, mirroring `dict.get` for string keys
(first binding wins; embedded dicts carry each key once). -/
def dictGet (d : List (String × Val)) (k : String) : Option Val :=
  match d with
  | [] => none
  | (k₁, v) :: rest => if k₁ = k then some v else dictGet rest k

/-- `payload.get(key, default)`. -/
def dictGetD (d : List (String × Val)) (k : String) (dflt : Val) : Val :=
  (dictGet d k).getD dflt

/-- `d[key] = v` on a Python dict: replace the binding in place if the key
exists, otherwise append it (insertion order is preserved). -/
def dictSet (d : List (String × Val)) (k : String) (v : Val) : List (String × Val) :=
  match d with
  | [] => [(k, v)]
  | (k₁, w) :: rest => if k₁ = k then (k₁, v) :: rest else (k₁, w) :: dictSet rest k v

/-- `del d[key]` / `dict.pop(key)`: drop the (unique) binding of `k`. -/
def dictDrop (d : List (String × Val)) (k : String) : List (String × Val) :=
  match d with
  | [] => []
  | (k₁, w) :: rest => if k₁ = k then rest else (k₁, w) :: dictDrop rest k

/-- Generic association-list lookup (used for non-`Val` tables). -/
def alistGet {κ α : Type} [DecidableEq κ] (d : List (κ × α)) (k : κ) : Option α :=
  match d with
  | [] => none
  | (k₁, v) :: rest => if k₁ = k then some v else alistGet rest k

/-- Generic association-list overwrite-or-append. -/
def alistSet {κ α : Type} [DecidableEq κ] (d : List (κ × α)) (k : κ) (v : α) :
    List (κ × α) :=
  match d with
  | [] => [(k, v)]
  | (k₁, w) :: rest => if k₁ = k then (k₁, v) :: rest else (k₁, w) :: alistSet rest k v

/-- Generic association-list delete. -/
def alistDrop {κ α : Type} [DecidableEq κ] (d : List (κ × α)) (k : κ) : List (κ × α) :=
  match d with
  | [] => []
  | (k₁, w) :: rest => if k₁ = k then rest else (k₁, w) :: alistDrop rest k


/-- Python truthiness of a value (`if message_id:` etc.). -/
def pyTruthy : Val → Bool
  | .vnull => false
  | .vbool b => b
  | .vint n => n ≠ 0
  | .vfloat q => q ≠ 0
  | .vstr s => s ≠ ""
  | .vlist l => ¬ l.isEmpty
  | .vdict d => ¬ d.isEmpty

/-- Python `str.strip()`: drop leading and trailing whitespace. -/
def pyStrip (s : String) : String :=
  ⟨(((s.data.dropWhile Char.isWhitespace).reverse.dropWhile Char.isWhitespace).reverse)⟩

/-- Python `type(x).__name__`, used in `TypeError` messages. -/
def pyTypeName : Val → String
  | .vnull => "NoneType"
  | .vbool _ => "bool"
  | .vint _ => "int"
  | .vfloat _ => "float"
  | .vstr _ => "str"
  | .vlist _ => "list"
  | .vdict _ => "dict"

/-- Python `len(x)`: defined for strings, lists and dicts, a `TypeError`
for the unsized types (`None`, numbers, booleans). -/
def pyLen : Val → Option Nat
  | .vstr s => some s.length
  | .vlist l => some l.length
  | .vdict d => some d.length
  | _ => none

/-- A single quote character, built numerically so the source text stays
free of quote characters. -/
def sq : String := String.singleton (Char.ofNat 39)

mutual

/-- Python `repr` of a value (element rendering inside containers);
float rendering is approximated by the rational literal. -/
def pyRepr : Val → String
  | .vnull => "None"
  | .vbool true => "True"
  | .vbool false => "False"
  | .vint n => toString n
  | .vfloat q => toString q
  | .vstr s => sq ++ s ++ sq
  | .vlist l => "[" ++ pyReprList l ++ "]"
  | .vdict d => String.singleton (Char.ofNat 123) ++ pyReprDict d ++ String.singleton (Char.ofNat 125)

/-- Comma-separated `repr`s of list elements. -/
def pyReprList : List Val → String
  | [] => ""
  | [v] => pyRepr v
  | v :: rest => pyRepr v ++ ", " ++ pyReprList rest

/-- Comma-separated `repr`s of dict items. -/
def pyReprDict : List (String × Val) → String
  | [] => ""
  | [(k, v)] => sq ++ k ++ sq ++ ": " ++ pyRepr v
  | (k, v) :: rest => sq ++ k ++ sq ++ ": " ++ pyRepr v ++ ", " ++ pyReprDict rest

end

/-- Python `str(x)`: identity on strings, `repr`-like elsewhere. -/
def pyStr : Val → String
  | .vstr s => s
  | v => pyRepr v

/-- Python `message[i]` for a non-negative index: list indexing, string
indexing (a one-character string), dict lookup by the *integer* key `i`
(string-keyed dicts therefore raise `KeyError`), `TypeError` otherwise. -/
def pyGetIdx (v : Val) (i : Nat) : Except PyErr Val :=
  match v with
  | .vlist l =>
    match l.get? i with
    | some x => .ok x
    | none => .error ⟨.indexError, "list index out of range"⟩
  | .vstr s =>
    match s.data.get? i with
    | some c => .ok (.vstr (String.singleton c))
    | none => .error ⟨.indexError, "string index out of range"⟩
  | .vdict _ => .error ⟨.keyError, toString i⟩
  | _ => .error ⟨.typeError, pyTypeName v ++ " object is not subscriptable"⟩

/-- Value of a digit string (empty string counts 0), helper for the
float parser. -/
def digitsVal (s : String) : ℚ := ((s.toNat?).getD 0 : ℚ)

/-- Python `float(s)` on a decimal string: optional sign, digits with an
optional fractional part (exponent notation is not reached by the
embedded code and is omitted). -/
def parse_float_str (s : String) : Option ℚ :=
  let core : String → Option ℚ := fun u =>
    match u.splitOn "." with
    | [i] => if i ≠ "" && i.all Char.isDigit then some (digitsVal i) else none
    | [i, f] =>
      if (i ≠ "" || f ≠ "") && i.all Char.isDigit && f.all Char.isDigit then
        some (digitsVal i + digitsVal f / (10 : ℚ) ^ f.length)
      else none
    | _ => none
  let t := pyStrip s
  if t.take 1 = "-" then (core (t.drop 1)).map Neg.neg
  else if t.take 1 = "+" then core (t.drop 1)
  else core t

/-- Python `float(x)`: exact on numbers and booleans, string parsing,
`TypeError` on other types. -/
def pyFloat : Val → Except PyErr ℚ
  | .vint n => .ok (n : ℚ)
  | .vfloat q => .ok q
  | .vbool b => .ok (if b then 1 else 0)
  | .vstr s =>
    match parse_float_str s with
    | some q => .ok q
    | none => .error ⟨.valueError,
        "could not convert string to float: " ++ sq ++ s ++ sq⟩
  | v => .error ⟨.typeError,
      "float() argument must be a string or a real number, not " ++
        sq ++ pyTypeName v ++ sq⟩

/-- Whether a value is a Python float (drives the result type of
arithmetic). -/
def isFloatV : Val → Bool
  | .vfloat _ => true
  | _ => false

/-- Python numeric binary arithmetic on runtime values: `int op int`
yields `int`, any float operand yields `float`, non-numeric operands
raise `TypeError` (the embedded code applies `-`, `*`, `+` only in
numeric positions). -/
def pyArith (opName : String) (f : ℚ → ℚ → ℚ) (a b : Val) : Except PyErr Val :=
  match pyNum a, pyNum b with
  | some x, some y =>
    if isFloatV a || isFloatV b then .ok (.vfloat (f x y))
    else .ok (.vint (f x y).num)
  | _, _ => .error ⟨.typeError,
      "unsupported operand type(s) for " ++ opName ++ ": " ++
        sq ++ pyTypeName a ++ sq ++ " and " ++ sq ++ pyTypeName b ++ sq⟩

/-- Python `a - b` (numeric). -/
def pySub : Val → Val → Except PyErr Val := pyArith "-" (· - ·)

/-- Python `a * b` (numeric). -/
def pyMul : Val → Val → Except PyErr Val := pyArith "*" (· * ·)

/-- Python `a + b` (numeric use only). -/
def pyAdd : Val → Val → Except PyErr Val := pyArith "+" (· + ·)

/-- Python iteration over a value: lists yield elements, strings yield
one-character strings, dicts yield their keys; other types raise
`TypeError`. -/
def pyIter (v : Val) : Except PyErr (List Val) :=
  match v with
  | .vlist l => .ok l
  | .vstr s => .ok (s.data.map (fun c => .vstr (String.singleton c)))
  | .vdict d => .ok (d.map (fun kv => Val.vstr kv.1))
  | _ => .error ⟨.typeError, sq ++ pyTypeName v ++ sq ++ " object is not iterable"⟩

/-- `x.get(key, default)` on a runtime value: dict lookup with default,
`AttributeError` when `x` is not a dict. -/
def pyDictGetD (v : Val) (k : String) (dflt : Val) : Except PyErr Val :=
  match v with
  | .vdict d => .ok (dictGetD d k dflt)
  | _ => .error ⟨.attributeError,
      sq ++ pyTypeName v ++ sq ++ " object has no attribute " ++ sq ++ "get" ++ sq⟩

/-! ### ISO-8601 timestamps

`timestamp.replace('Z', '+00:00')` followed by `datetime.fromisoformat`.
The recognizer below is modelled from the library boundary (spec §6: a
date, `T`, a time, and a `Z` or numeric-offset suffix), simplified to
digit-shape checks; no claim depends on its fine structure. -/

/-- Nonempty all-digit string. -/
def all_digits (s : String) : Bool := s ≠ "" && s.all Char.isDigit

/-- Exactly two digits. -/
def two_digits (s : String) : Bool := s.length = 2 && s.all Char.isDigit

/-- `YYYY-MM-DD` shape. -/
def date_ok (s : String) : Bool :=
  match s.splitOn "-" with
  | [y, m, d] => y.length = 4 && y.all Char.isDigit && two_digits m && two_digits d
  | _ => false

/-- `SS` or `SS.ffffff` shape. -/
def seconds_ok (s : String) : Bool :=
  match s.splitOn "." with
  | [ss] => two_digits ss
  | [ss, frac] => two_digits ss && all_digits frac && frac.length ≤ 6
  | _ => false

/-- `HH:MM` or `HH:MM:SS[.ffffff]` shape. -/
def clock_ok (s : String) : Bool :=
  match s.splitOn ":" with
  | [h, m] => two_digits h && two_digits m
  | [h, m, ss] => two_digits h && two_digits m && seconds_ok ss
  | _ => false

/-- `HH:MM` offset shape. -/
def offset_ok (s : String) : Bool :=
  match s.splitOn ":" with
  | [h, m] => two_digits h && two_digits m
  | _ => false

/-- Time-of-day with an optional `+`/`-` numeric offset. -/
def time_with_offset_ok (s : String) : Bool :=
  match s.splitOn "+" with
  | [t] =>
    match t.splitOn "-" with
    | [t₀] => clock_ok t₀
    | [t₀, off] => clock_ok t₀ && offset_ok off
    | _ => false
  | [t, off] => clock_ok t && offset_ok off
  | _ => false

/-- Recognizer for the ISO-8601 instants accepted after Z-replacement. -/
def fromisoformat_ok (s : String) : Bool :=
  date_ok (s.take 10) &&
    (s.drop 10 = "" ||
      (((s.drop 10).take 1 = "T" || (s.drop 10).take 1 = " ") &&
        time_with_offset_ok ((s.drop 10).drop 1)))

/-- `timestamp.replace('Z', '+00:00')`. -/
def replaceZ (s : String) : String := s.replace "Z" "+00:00"

/-- `datetime.fromisoformat(timestamp.replace('Z', '+00:00'))`: the
normalized string on success, `ValueError` on a malformed string, and
`AttributeError` when the timestamp is not a string (`None.replace`). -/
def pyIsoParse (v : Val) : Except PyErr String :=
  match v with
  | .vstr s =>
    let t := replaceZ s
    if fromisoformat_ok t then .ok t
    else .error ⟨.valueError, "Invalid isoformat string: " ++ sq ++ t ++ sq⟩
  | v => .error ⟨.attributeError,
      sq ++ pyTypeName v ++ sq ++ " object has no attribute " ++ sq ++ "replace" ++ sq⟩

/-! ## Retry / error coordinator (`ocpp_error_handler.py`) -/

/-- `RetryStrategy` enum. -/
inductive RetryStrategy where
  | exponential_backoff
  | fixed_interval
  | linear_backoff
deriving DecidableEq

/-- One per-action retry configuration (delays in seconds, as rationals). -/
structure RetryConfig where
  max_retries : Nat
  strategy : RetryStrategy
  base_delay : ℚ
  max_delay : ℚ
  timeout_s : ℚ
deriving DecidableEq

/-- The `retry_configs` table of `OCPPErrorHandler.__init__`. -/
def retry_configs : List (String × RetryConfig) :=
  [("RemoteStartTransaction", ⟨3, .exponential_backoff, 2, 30, 30⟩),
   ("RemoteStopTransaction", ⟨3, .exponential_backoff, 2, 30, 30⟩),
   ("Reset", ⟨2, .fixed_interval, 5, 60, 60⟩),
   ("UnlockConnector", ⟨2, .linear_backoff, 3, 15, 20⟩),
   ("default", ⟨2, .exponential_backoff, 1, 10, 30⟩)]

/-- `OCPPErrorHandler.get_retry_config`: the action entry, falling back to
the `"default"` entry for unknown actions. -/
def get_retry_config (action : String) : RetryConfig :=
  (alistGet retry_configs action).getD ⟨2, .exponential_backoff, 1, 10, 30⟩

/-- `OCPPErrorHandler.calculate_delay`: exponential `base * 2^attempt`,
linear `base * (attempt + 1)` or fixed `base`, clamped by
`min(delay, max_delay)`. -/
def calculate_delay (attempt : Nat) (strategy : RetryStrategy)
    (base_delay max_delay : ℚ) : ℚ :=
  let delay :=
    match strategy with
    | .exponential_backoff => base_delay * 2 ^ attempt
    | .linear_backoff => base_delay * ((attempt : ℚ) + 1)
    | .fixed_interval => base_delay
  min delay max_delay

/-- Outcome of one invocation of the zero-argument operation passed to
`execute_with_retry`: a result, or one of the exception classes the
`except` clauses distinguish. -/
inductive OpOutcome where
  | success (v : Val)
  | timedOut (m : String)
  | connectionError (m : String)
  | invalid (m : String)
  | failure (m : String)

/-- The retry loop of `OCPPErrorHandler.execute_with_retry`, instrumented
with the number of calls made to the operation.  `op a` is the outcome of
the operation on attempt `a`; `fuel` is the number of retries still
allowed after the current attempt.  Success returns immediately;
`ValueError` (`invalid`) breaks out of the loop; all other failures
retry while fuel remains, and the last error is re-raised at the end. -/
def retryAux (op : Nat → OpOutcome) : Nat → Nat → OpOutcome × Nat
  | attempt, fuel =>
    match op attempt, fuel with
    | .success v, _ => (.success v, 1)
    | .invalid m, _ => (.invalid m, 1)
    | e, 0 => (e, 1)
    | _, f + 1 =>
      let r := retryAux op (attempt + 1) f
      (r.1, r.2 + 1)

/-- `OCPPErrorHandler.execute_with_retry` for `action`, returning the
final outcome (a `success` is returned, anything else is re-raised to
the caller) and the number of operation calls made. -/
def execute_with_retry (action : String) (op : Nat → OpOutcome) : OpOutcome × Nat :=
  retryAux op 0 (get_retry_config action).max_retries

/-! ## Transaction id generation (`ocpp_service.py`) -/

/-- `OCPPService.generate_transaction_id`: the current wall-clock time in
milliseconds, reduced modulo `2147483647`.  `now_ms` is the value of
`int(datetime.now().timestamp() * 1000)` at the call. -/
def generate_transaction_id (now_ms : Int) : Int :=
  now_ms % 2147483647

/-! ## Charging session manager (`charging_session.py`) -/

/-- `SessionStatus` enum. -/
inductive SessionStatus where
  | preparing
  | charging
  | suspended_ev
  | suspended_evse
  | finishing
  | completed
  | faulted
  | cancelled
deriving DecidableEq

/-- One appended `MeterValue` record: raw timestamp and raw
`sampledValue` payload. -/
structure MeterValueRec where
  timestamp : Val
  sampled_values : Val

/-- A `ChargingSession` dataclass instance.  Numeric fields hold runtime
values (`Val`): the source stores raw payload values into them and only
converts through `float()` where it does so itself. -/
structure SessionRec where
  session_id : String
  pile_id : String
  connector_id : Val
  user_id : Val
  id_tag : Val
  transaction_id : Int
  start_time : String
  end_time : Val
  meter_start : Val
  meter_stop : Val
  status : SessionStatus
  stop_reason : Val
  energy_delivered : Val := .vfloat 0
  cost : Val := .vfloat 0
  price_per_kwh : Val := .vfloat (3 / 2)
  current_power : Val := .vfloat 0
  voltage : Val := .vfloat 0
  current : Val := .vfloat 0
  temperature : Val := .vfloat 0
  meter_values : List MeterValueRec := []

/-- `ChargingSessionManager` state.  `uuid_seq` models the process's
uuid source as a fresh-name counter (`generate_session_id` draws from
it); `client_subscriptions` and the WebSocket notification path are
transport I/O and are not modelled. -/
structure SessionMgr where
  sessions : List (String × SessionRec)
  transaction_sessions : List (Int × String)
  pile_sessions : List (String × List String)
  total_sessions : Nat
  total_energy_delivered : Val
  uuid_seq : Nat

/-- The empty manager (`ChargingSessionManager.__init__`):
`total_energy_delivered = 0.0`. -/
def SessionMgr.empty : SessionMgr :=
  ⟨[], [], [], 0, .vfloat 0, 0⟩

/-- A runtime value used as a transaction-id dict key.  Python dict
lookup identifies numerically equal keys (`1`, `1.0`, `True`), and the
stored keys are the `int`s produced by `generate_transaction_id`. -/
def txnKey : Val → Option Int
  | .vint n => some n
  | .vbool b => some (if b then 1 else 0)
  | .vfloat q => if q.den = 1 then some q.num else none
  | _ => none

/-- `ChargingSessionManager.get_session_by_transaction`: transaction-id
index then session store. -/
def get_session_by_transaction (mgr : SessionMgr) (txn : Val) :
    Option (String × SessionRec) :=
  match txnKey txn with
  | none => none
  | some n =>
    match alistGet mgr.transaction_sessions n with
    | none => none
    | some sid => (alistGet mgr.sessions sid).map (fun r => (sid, r))

/-- `ChargingSessionManager.generate_session_id`, with the uuid hex
modelled by the fresh-name counter. -/
def generate_session_id (n : Nat) : String := "session_" ++ toString n

/-- The inner loop body of `update_meter_values`: apply one
`sampledValue` entry to the session's running telemetry (absolute
assignments with Wh→kWh and W→kW conversion). -/
def apply_sampled_value (s : SessionRec) (sv : Val) : SessionRec × Except PyErr Unit :=
  match pyDictGetD sv "measurand" (.vstr "Energy.Active.Import.Register") with
  | .error e => (s, .error e)
  | .ok measurand =>
    match pyDictGetD sv "value" (.vint 0) with
    | .error e => (s, .error e)
    | .ok rawValue =>
      match pyFloat rawValue with
      | .error e => (s, .error e)
      | .ok value =>
        match pyDictGetD sv "unit" (.vstr "Wh") with
        | .error e => (s, .error e)
        | .ok unitV =>
          if pyEq measurand (.vstr "Energy.Active.Import.Register") then
            if pyEq unitV (.vstr "kWh") then
              ({ s with energy_delivered := .vfloat value }, .ok ())
            else if pyEq unitV (.vstr "Wh") then
              ({ s with energy_delivered := .vfloat (value / 1000) }, .ok ())
            else (s, .ok ())
          else if pyEq measurand (.vstr "Power.Active.Import") then
            if pyEq unitV (.vstr "kW") then
              ({ s with current_power := .vfloat value }, .ok ())
            else if pyEq unitV (.vstr "W") then
              ({ s with current_power := .vfloat (value / 1000) }, .ok ())
            else (s, .ok ())
          else if pyEq measurand (.vstr "Voltage") then
            ({ s with voltage := .vfloat value }, .ok ())
          else if pyEq measurand (.vstr "Current.Import") then
            ({ s with current := .vfloat value }, .ok ())
          else if pyEq measurand (.vstr "Temperature") then
            ({ s with temperature := .vfloat value }, .ok ())
          else (s, .ok ())

/-- Fold of `apply_sampled_value` over the `sampledValue` list; an
exception stops the loop with the partial mutations kept (Python
in-place update semantics). -/
def apply_sampled_values (s : SessionRec) : List Val → SessionRec × Except PyErr Unit
  | [] => (s, .ok ())
  | sv :: rest =>
    match apply_sampled_value s sv with
    | (s₁, .ok _) => apply_sampled_values s₁ rest
    | (s₁, .error e) => (s₁, .error e)

/-- The outer loop body of `update_meter_values`: read the entry, append
the `MeterValue` record, apply its sampled values, then recompute
`cost = energy_delivered * price_per_kwh`. -/
def apply_meter_value (s : SessionRec) (mv : Val) : SessionRec × Except PyErr Unit :=
  match pyDictGetD mv "timestamp" .vnull with
  | .error e => (s, .error e)
  | .ok ts =>
    match pyDictGetD mv "sampledValue" (.vlist []) with
    | .error e => (s, .error e)
    | .ok svsRaw =>
      let s₁ := { s with meter_values := s.meter_values ++ [⟨ts, svsRaw⟩] }
      match pyIter svsRaw with
      | .error e => (s₁, .error e)
      | .ok svs =>
        match apply_sampled_values s₁ svs with
        | (s₂, .ok _) =>
          match pyMul s₂.energy_delivered s₂.price_per_kwh with
          | .ok c => ({ s₂ with cost := c }, .ok ())
          | .error e => (s₂, .error e)
        | (s₂, .error e) => (s₂, .error e)

/-- Fold of `apply_meter_value` over the `meterValue` list. -/
def apply_meter_values (s : SessionRec) : List Val → SessionRec × Except PyErr Unit
  | [] => (s, .ok ())
  | mv :: rest =>
    match apply_meter_value s mv with
    | (s₁, .ok _) => apply_meter_values s₁ rest
    | (s₁, .error e) => (s₁, .error e)

/-- `ChargingSessionManager.update_meter_values`: resolve the session by
transaction id (silently returning when unknown), then run the meter
loop on it; the (possibly partially) updated session is stored back. -/
def update_meter_values (mgr : SessionMgr) (txn meter_values : Val) :
    SessionMgr × Except PyErr Unit :=
  match get_session_by_transaction mgr txn with
  | none => (mgr, .ok ())
  | some (sid, s) =>
    match pyIter meter_values with
    | .error e => (mgr, .error e)
    | .ok items =>
      match apply_meter_values s items with
      | (s₁, r) => ({ mgr with sessions := alistSet mgr.sessions sid s₁ }, r)

/-- `ChargingSessionManager.create_session_from_pile`: draw a session
id, parse the start time, store a `Charging` session and index it by
transaction id and pile. -/
def create_session_from_pile (mgr : SessionMgr) (pile_id : String)
    (connector_id id_tag : Val) (transaction_id : Int)
    (meter_start start_time : Val) : SessionMgr × Except PyErr String :=
  let sid := generate_session_id mgr.uuid_seq
  let mgr₁ := { mgr with uuid_seq := mgr.uuid_seq + 1 }
  match pyIsoParse start_time with
  | .error e => (mgr₁, .error e)
  | .ok startIso =>
    let s : SessionRec :=
      { session_id := sid, pile_id := pile_id, connector_id := connector_id,
        user_id := .vnull, id_tag := id_tag, transaction_id := transaction_id,
        start_time := startIso, end_time := .vnull, meter_start := meter_start,
        meter_stop := .vnull, status := .charging, stop_reason := .vnull }
    ({ mgr₁ with
        sessions := alistSet mgr₁.sessions sid s,
        transaction_sessions := alistSet mgr₁.transaction_sessions transaction_id sid,
        pile_sessions := alistSet mgr₁.pile_sessions pile_id
          (((alistGet mgr₁.pile_sessions pile_id).getD []) ++ [sid]),
        total_sessions := mgr₁.total_sessions + 1 }, .ok sid)

/-- `ChargingSessionManager.end_session_by_transaction`: `none` for an
unknown transaction id (nothing mutated); otherwise parse the end time,
close the session, recompute energy/cost, add the energy into the
process-wide total and release the transaction index.  The `Bool` result
is whether a session was found (the source returns the session or
`None`). -/
def end_session_by_transaction (mgr : SessionMgr)
    (txn meter_stop end_time reason : Val) : SessionMgr × Except PyErr Bool :=
  match get_session_by_transaction mgr txn with
  | none => (mgr, .ok false)
  | some (sid, s) =>
    match pyIsoParse end_time with
    | .error e => (mgr, .error e)
    | .ok endIso =>
      let s₁ := { s with end_time := .vstr endIso, meter_stop := meter_stop,
                         status := SessionStatus.completed, stop_reason := reason }
      match pySub meter_stop s.meter_start with
      | .error e => ({ mgr with sessions := alistSet mgr.sessions sid s₁ }, .error e)
      | .ok en =>
        let s₂ := { s₁ with energy_delivered := en }
        match pyMul en s₂.price_per_kwh with
        | .error e => ({ mgr with sessions := alistSet mgr.sessions sid s₂ }, .error e)
        | .ok c =>
          let s₃ := { s₂ with cost := c }
          match pyAdd mgr.total_energy_delivered en with
          | .error e => ({ mgr with sessions := alistSet mgr.sessions sid s₃ }, .error e)
          | .ok tot =>
            ({ mgr with
                sessions := alistSet mgr.sessions sid s₃,
                total_energy_delivered := tot,
                transaction_sessions :=
                  match txnKey txn with
                  | some n => alistDrop mgr.transaction_sessions n
                  | none => mgr.transaction_sessions }, .ok true)

/-! ## Pile manager (`pile_manager.py`), as touched by the OCPP handlers -/

/-- The `ConnectorStatus` enum values. -/
def connector_status_values : List String :=
  ["Available", "Preparing", "Charging", "SuspendedEV", "SuspendedEVSE",
   "Finishing", "Reserved", "Unavailable", "Faulted"]

/-- `ConnectorStatus(status)`: the value string when it names an enum
member, otherwise `ValueError`. -/
def mkConnectorStatus (v : Val) : Except PyErr String :=
  match v with
  | .vstr s =>
    if connector_status_values.contains s then .ok s
    else .error ⟨.valueError, pyRepr v ++ " is not a valid ConnectorStatus"⟩
  | _ => .error ⟨.valueError, pyRepr v ++ " is not a valid ConnectorStatus"⟩

/-- A `Connector` dataclass instance (status held as the enum value). -/
structure ConnectorRec where
  connector_id : Val
  status : String
  error_code : Val

/-- A `ChargingPile` record, restricted to the fields the OCPP service
reads or writes. -/
structure PileRec where
  charge_point_vendor : Val := .vnull
  charge_point_model : Val := .vnull
  charge_point_serial_number : Val := .vnull
  firmware_version : Val := .vnull
  status : String := "Unavailable"
  is_online : Bool := false
  last_heartbeat : Val := .vnull
  last_boot_time : Val := .vnull
  connectors : List ConnectorRec := [⟨.vint 1, "Unavailable", .vstr "NoError"⟩]

/-- `ChargingPileManager.update_pile_info`: unknown piles are ignored;
each present key overwrites its field.  The `last_boot_time` value is the
engine's own `isoformat()` output, whose re-parse always succeeds, so it
is stored as given. -/
def update_pile_info (piles : List (String × PileRec)) (pile_id : String)
    (info : List (String × Val)) : List (String × PileRec) :=
  match alistGet piles pile_id with
  | none => piles
  | some p =>
    let p := match dictGet info "charge_point_vendor" with
      | some v => { p with charge_point_vendor := v }
      | none => p
    let p := match dictGet info "charge_point_model" with
      | some v => { p with charge_point_model := v }
      | none => p
    let p := match dictGet info "charge_point_serial_number" with
      | some v => { p with charge_point_serial_number := v }
      | none => p
    let p := match dictGet info "firmware_version" with
      | some v => { p with firmware_version := v }
      | none => p
    let p := match dictGet info "last_boot_time" with
      | some v => { p with last_boot_time := v }
      | none => p
    alistSet piles pile_id p

/-- `ChargingPileManager.update_pile_status`: recompute a pile's overall
status from its connector statuses. -/
def compute_pile_status (p : PileRec) : String :=
  if ¬ p.is_online then "Unavailable"
  else
    let sts := p.connectors.map (fun c => c.status)
    if sts.contains "Faulted" then "Faulted"
    else if sts.contains "Charging" then "Charging"
    else if sts.any (fun s => s = "SuspendedEV" || s = "SuspendedEVSE") then
      (if sts.contains "SuspendedEV" then "SuspendedEV" else "SuspendedEVSE")
    else if sts.contains "Preparing" then "Preparing"
    else if sts.contains "Finishing" then "Finishing"
    else if sts.contains "Reserved" then "Reserved"
    else if sts.all (fun s => s = "Available") then "Available"
    else "Unavailable"

/-- Update the first connector whose id compares `==` to `cid`,
returning `none` when no connector matches. -/
def set_connector_status (cid : Val) (st : String) (ec : Val) :
    List ConnectorRec → Option (List ConnectorRec)
  | [] => none
  | c :: rest =>
    if pyEq c.connector_id cid then
      some ({ c with status := st, error_code := ec } :: rest)
    else (set_connector_status cid st ec rest).map (fun cs => c :: cs)

/-- `ChargingPileManager.update_connector_status`: unknown piles are
ignored; an invalid status string raises `ValueError` (the enum
constructor) before any mutation; otherwise the matching connector is
updated (or a new one appended) and the pile status recomputed. -/
def update_connector_status (piles : List (String × PileRec)) (pile_id : String)
    (connector_id status error_code : Val) :
    List (String × PileRec) × Except PyErr Unit :=
  match alistGet piles pile_id with
  | none => (piles, .ok ())
  | some p =>
    match mkConnectorStatus status with
    | .error e => (piles, .error e)
    | .ok st =>
      let connectors :=
        match set_connector_status connector_id st error_code p.connectors with
        | some cs => cs
        | none => p.connectors ++ [⟨connector_id, st, error_code⟩]
      let p₁ := { p with connectors := connectors }
      let p₂ := { p₁ with status := compute_pile_status p₁ }
      (alistSet piles pile_id p₂, .ok ())

/-- `ChargingPileManager.update_last_heartbeat`. -/
def update_last_heartbeat (piles : List (String × PileRec)) (pile_id : String)
    (now_iso : String) : List (String × PileRec) :=
  match alistGet piles pile_id with
  | none => piles
  | some p => alistSet piles pile_id { p with last_heartbeat := .vstr now_iso }

/-! ## OCPP protocol engine (`ocpp_service.py`) -/

/-- A `pending_requests` entry. -/
structure PendingReq where
  action : String
  pile_id : String
  timestamp : String

/-- The wall clock observed during one message (its `isoformat()` string
and `timestamp() * 1000` milliseconds); `datetime.now` is a boundary
collaborator. -/
structure Clock where
  iso : String
  ms : Int

/-- The mutable state reachable from `OCPPService.handle_message`: the
service's own pending-request map, the global session manager and the
global pile registry, plus the clock snapshot. -/
structure SvcState where
  pending_requests : List (String × PendingReq)
  session_mgr : SessionMgr
  piles : List (String × PileRec)
  clock : Clock

/-- `OCPPService.create_call_result`. -/
def create_call_result (message_id : String) (payload : Val) : Val :=
  .vlist [.vint 3, .vstr message_id, payload]

/-- `OCPPService.create_call_error` (defaulted `error_details`). -/
def create_call_error (message_id : Val) (error_code error_description : String) : Val :=
  .vlist [.vint 4, message_id, .vstr error_code, .vstr error_description, .vdict []]

/-- `OCPPService.authorize_user`: the source accepts every id tag. -/
def authorize_user (_idTag : Val) : Bool := true

/-- `OCPPService.handle_boot_notification`. -/
def handle_boot_notification (st : SvcState) (pile_id : String)
    (payload : List (String × Val)) : SvcState × Except PyErr Val :=
  let info : List (String × Val) :=
    [("charge_point_vendor", dictGetD payload "chargePointVendor" .vnull),
     ("charge_point_model", dictGetD payload "chargePointModel" .vnull),
     ("charge_point_serial_number", dictGetD payload "chargePointSerialNumber" .vnull),
     ("firmware_version", dictGetD payload "firmwareVersion" .vnull),
     ("last_boot_time", .vstr st.clock.iso)]
  ({ st with piles := update_pile_info st.piles pile_id info },
   .ok (.vdict [("status", .vstr "Accepted"), ("currentTime", .vstr st.clock.iso),
                ("interval", .vint 300)]))

/-- `OCPPService.handle_status_notification`. -/
def handle_status_notification (st : SvcState) (pile_id : String)
    (payload : List (String × Val)) : SvcState × Except PyErr Val :=
  let connector_id := dictGetD payload "connectorId" (.vint 0)
  let status := dictGetD payload "status" .vnull
  let error_code := dictGetD payload "errorCode" (.vstr "NoError")
  match update_connector_status st.piles pile_id connector_id status error_code with
  | (piles₁, .ok _) => ({ st with piles := piles₁ }, .ok (.vdict []))
  | (piles₁, .error e) => ({ st with piles := piles₁ }, .error e)

/-- `OCPPService.handle_start_transaction`: authorize (always accepted
in the source), draw a transaction id from the clock, create the
session. -/
def handle_start_transaction (st : SvcState) (pile_id : String)
    (payload : List (String × Val)) : SvcState × Except PyErr Val :=
  let connector_id := dictGetD payload "connectorId" .vnull
  let id_tag := dictGetD payload "idTag" .vnull
  let meter_start := dictGetD payload "meterStart" (.vint 0)
  let timestamp := dictGetD payload "timestamp" .vnull
  if ¬ authorize_user id_tag then
    (st, .ok (.vdict [("idTagInfo", .vdict [("status", .vstr "Invalid")])]))
  else
    let transaction_id := generate_transaction_id st.clock.ms
    match create_session_from_pile st.session_mgr pile_id connector_id id_tag
        transaction_id meter_start timestamp with
    | (mgr₁, .error e) => ({ st with session_mgr := mgr₁ }, .error e)
    | (mgr₁, .ok _) =>
      ({ st with session_mgr := mgr₁ },
       .ok (.vdict [("idTagInfo", .vdict [("status", .vstr "Accepted")]),
                    ("transactionId", .vint transaction_id)]))

/-- `OCPPService.handle_stop_transaction`. -/
def handle_stop_transaction (st : SvcState) (_pile_id : String)
    (payload : List (String × Val)) : SvcState × Except PyErr Val :=
  let transaction_id := dictGetD payload "transactionId" .vnull
  let meter_stop := dictGetD payload "meterStop" (.vint 0)
  let timestamp := dictGetD payload "timestamp" .vnull
  let reason := dictGetD payload "reason" (.vstr "Local")
  match end_session_by_transaction st.session_mgr transaction_id meter_stop
      timestamp reason with
  | (mgr₁, .error e) => ({ st with session_mgr := mgr₁ }, .error e)
  | (mgr₁, .ok true) =>
    ({ st with session_mgr := mgr₁ },
     .ok (.vdict [("idTagInfo", .vdict [("status", .vstr "Accepted")])]))
  | (mgr₁, .ok false) =>
    ({ st with session_mgr := mgr₁ },
     .ok (.vdict [("idTagInfo", .vdict [("status", .vstr "Invalid")])]))

/-- `OCPPService.handle_heartbeat`. -/
def handle_heartbeat (st : SvcState) (pile_id : String)
    (_payload : List (String × Val)) : SvcState × Except PyErr Val :=
  ({ st with piles := update_last_heartbeat st.piles pile_id st.clock.iso },
   .ok (.vdict [("currentTime", .vstr st.clock.iso)]))

/-- `OCPPService.handle_meter_values`. -/
def handle_meter_values (st : SvcState) (_pile_id : String)
    (payload : List (String × Val)) : SvcState × Except PyErr Val :=
  let transaction_id := dictGetD payload "transactionId" .vnull
  let meter_values := dictGetD payload "meterValue" (.vlist [])
  match update_meter_values st.session_mgr transaction_id meter_values with
  | (mgr₁, .ok _) => ({ st with session_mgr := mgr₁ }, .ok (.vdict []))
  | (mgr₁, .error e) => ({ st with session_mgr := mgr₁ }, .error e)

/-- `OCPPService.handle_authorize`. -/
def handle_authorize (st : SvcState) (_pile_id : String)
    (payload : List (String × Val)) : SvcState × Except PyErr Val :=
  let id_tag := dictGetD payload "idTag" .vnull
  (st, .ok (.vdict [("idTagInfo", .vdict [("status",
    .vstr (if authorize_user id_tag then "Accepted" else "Invalid"))])]))

/-- `OCPPService.handle_remote_start_response` (log-only). -/
def handle_remote_start_response (st : SvcState) (_pile_id : String)
    (_payload : List (String × Val)) : SvcState × Except PyErr Val :=
  (st, .ok .vnull)

/-- `OCPPService.handle_remote_stop_response` (log-only). -/
def handle_remote_stop_response (st : SvcState) (_pile_id : String)
    (_payload : List (String × Val)) : SvcState × Except PyErr Val :=
  (st, .ok .vnull)

/-- `OCPPService.handle_reset_response` (log-only). -/
def handle_reset_response (st : SvcState) (_pile_id : String)
    (_payload : List (String × Val)) : SvcState × Except PyErr Val :=
  (st, .ok .vnull)

/-- `OCPPService.handle_unlock_response` (log-only). -/
def handle_unlock_response (st : SvcState) (_pile_id : String)
    (_payload : List (String × Val)) : SvcState × Except PyErr Val :=
  (st, .ok .vnull)

/-- The keys of `OCPPService.message_handlers`: the seven pile-initiated
actions and the four `...Response` handlers for engine-initiated
operations. -/
def message_handlers : List String :=
  ["BootNotification", "StatusNotification", "StartTransaction", "StopTransaction",
   "Heartbeat", "MeterValues", "Authorize",
   "RemoteStartTransactionResponse", "RemoteStopTransactionResponse",
   "ResetResponse", "UnlockConnectorResponse"]

/-- Dispatch through `message_handlers` by action name (the final branch
is unreachable under the `action in self.message_handlers` guard). -/
def dispatch (st : SvcState) (pile_id action : String)
    (payload : List (String × Val)) : SvcState × Except PyErr Val :=
  if action = "BootNotification" then handle_boot_notification st pile_id payload
  else if action = "StatusNotification" then handle_status_notification st pile_id payload
  else if action = "StartTransaction" then handle_start_transaction st pile_id payload
  else if action = "StopTransaction" then handle_stop_transaction st pile_id payload
  else if action = "Heartbeat" then handle_heartbeat st pile_id payload
  else if action = "MeterValues" then handle_meter_values st pile_id payload
  else if action = "Authorize" then handle_authorize st pile_id payload
  else if action = "RemoteStartTransactionResponse" then
    handle_remote_start_response st pile_id payload
  else if action = "RemoteStopTransactionResponse" then
    handle_remote_stop_response st pile_id payload
  else if action = "ResetResponse" then handle_reset_response st pile_id payload
  else if action = "UnlockConnectorResponse" then handle_unlock_response st pile_id payload
  else (st, .ok .vnull)

/-- `OCPPService.handle_call`: dispatch a known action, converting any
handler exception into a CALLERROR `InternalError` with the failure
message; unknown actions get CALLERROR `NotSupported`. -/
def handle_call (st : SvcState) (pile_id message_id action : String)
    (payload : List (String × Val)) : SvcState × Option Val :=
  if message_handlers.contains action then
    match dispatch st pile_id action payload with
    | (st₁, .ok r) => (st₁, some (create_call_result message_id r))
    | (st₁, .error e) =>
      (st₁, some (create_call_error (.vstr message_id) "InternalError" e.msg))
  else
    (st, some (create_call_error (.vstr message_id) "NotSupported"
      ("Action " ++ action ++ " not supported")))

/-- `OCPPService.handle_call_result`: pop the pending request for this
message id; the dispatch guard tests the stored *base* action name
against the handler table before invoking `handlers[action + "Response"]`
(a `KeyError` when the guard passes but the `Response` key is missing).
The final `List String` component is instrumentation: the response
handlers this call invokes. -/
def handle_call_result (st : SvcState) (pile_id message_id : String)
    (payload : List (String × Val)) :
    SvcState × Except PyErr (Option Val) × List String :=
  match alistGet st.pending_requests message_id with
  | some req =>
    let st₁ := { st with pending_requests := alistDrop st.pending_requests message_id }
    if message_handlers.contains req.action then
      if message_handlers.contains (req.action ++ "Response") then
        match dispatch st₁ pile_id (req.action ++ "Response") payload with
        | (st₂, .ok _) => (st₂, .ok none, [req.action ++ "Response"])
        | (st₂, .error e) => (st₂, .error e, [req.action ++ "Response"])
      else
        (st₁, .error ⟨.keyError, sq ++ req.action ++ "Response" ++ sq⟩, [])
    else (st₁, .ok none, [])
  | none => (st, .ok none, [])

/-- `OCPPService.handle_call_error`: pop the pending request if any and
return nothing. -/
def handle_call_error (st : SvcState) (_pile_id message_id : String)
    (_error_code _error_description : String) (_details : List (String × Val)) :
    SvcState × Option Val :=
  match alistGet st.pending_requests message_id with
  | some _ =>
    ({ st with pending_requests := alistDrop st.pending_requests message_id }, none)
  | none => (st, none)

/-- `isinstance(x, str) and x.strip()` (non-blank string). -/
def strip_nonempty (v : Val) : Bool :=
  match v with
  | .vstr s => pyStrip s ≠ ""
  | _ => false

/-- The underlying string of a string value (used after a
`strip_nonempty` check has passed). -/
def asStr : Val → String
  | .vstr s => s
  | _ => ""

/-- `str(message_id) if message_id else "unknown"`. -/
def mid_fallback (v : Val) : Val :=
  if pyTruthy v then .vstr (pyStr v) else .vstr "unknown"

/-- `isinstance(message_type, int) and message_type in [2, 3, 4]`
(booleans are Python ints but equal 0/1, so they fail the membership). -/
def message_type_ok (v : Val) : Bool :=
  match v with
  | .vint n => n = 2 || n = 3 || n = 4
  | _ => false

/-- The body of `handle_message` on a list frame: structural validation
in source order (length, message id, message type, then the per-type
shape), routing to `handle_call` / `handle_call_result` /
`handle_call_error`. -/
def handle_message_list (st : SvcState) (pile_id : String) (l : List Val) :
    SvcState × Except PyErr (Option Val) :=
  if l.length < 3 then
    (st, .ok (some (create_call_error
      (if l.length > 1 then l.getD 1 .vnull else .vstr "unknown")
      "FormatViolation" "Invalid message format")))
  else
    let message_type := l.getD 0 .vnull
    let message_id := l.getD 1 .vnull
    if ¬ strip_nonempty message_id then
      (st, .ok (some (create_call_error (mid_fallback message_id)
        "FormatViolation" "Invalid message ID")))
    else
      let mid := asStr message_id
      if ¬ message_type_ok message_type then
        (st, .ok (some (create_call_error (.vstr mid)
          "MessageTypeNotSupported" "Invalid message type")))
      else
      match message_type with
      | .vint 2 =>
        if l.length ≠ 4 then
          (st, .ok (some (create_call_error (.vstr mid)
            "FormatViolation" "Invalid CALL message format")))
        else
          let action := l.getD 2 .vnull
          if ¬ strip_nonempty action then
            (st, .ok (some (create_call_error (.vstr mid)
              "FormatViolation" "Invalid action")))
          else
            match l.getD 3 .vnull with
            | .vdict d =>
              match handle_call st pile_id mid (asStr action) d with
              | (st₁, r) => (st₁, .ok r)
            | _ =>
              (st, .ok (some (create_call_error (.vstr mid)
                "FormatViolation" "Invalid payload format")))
      | .vint 3 =>
        if l.length ≠ 3 then (st, .ok none)
        else
          match l.getD 2 .vnull with
          | .vdict d =>
            match handle_call_result st pile_id mid d with
            | (st₁, r, _) => (st₁, r)
          | _ => (st, .ok none)
      | .vint 4 =>
        if l.length ≠ 5 then (st, .ok none)
        else
          match l.getD 2 .vnull, l.getD 3 .vnull, l.getD 4 .vnull with
          | .vstr code, .vstr desc, .vdict d =>
            match handle_call_error st pile_id mid code desc d with
            | (st₁, r) => (st₁, .ok r)
          | _, _, _ => (st, .ok none)
      | _ => (st, .ok none)

/-- `message[1] if len(message) > 1 else "unknown"`, as evaluated inside
the error paths of `handle_message` (it can itself raise: `len` of an
unsized value, or indexing a dict). -/
def err_frame_id (v : Val) : Except PyErr Val :=
  match pyLen v with
  | none => .error ⟨.typeError,
      "object of type " ++ sq ++ pyTypeName v ++ sq ++ " has no len()"⟩
  | some n => if n > 1 then pyGetIdx v 1 else .ok (.vstr "unknown")

/-- `OCPPService.handle_message`: the `try` body (non-list frames take
the `not isinstance(message, list)` branch), then the
`except KeyError / TypeError / Exception` clauses, each of which
re-evaluates `err_frame_id` and can therefore itself raise (an `Except`
error in the result models an exception escaping `handle_message`). -/
def handle_message (st : SvcState) (pile_id : String) (msg : Val) :
    SvcState × Except PyErr (Option Val) :=
  let core : SvcState × Except PyErr (Option Val) :=
    match msg with
    | .vlist l => handle_message_list st pile_id l
    | _ =>
      match err_frame_id msg with
      | .ok mid =>
        (st, .ok (some (create_call_error mid "FormatViolation" "Invalid message format")))
      | .error e => (st, .error e)
  match core with
  | (st₁, .ok r) => (st₁, .ok r)
  | (st₁, .error e) =>
    match err_frame_id msg with
    | .error e₂ => (st₁, .error e₂)
    | .ok mid =>
      match e.kind with
      | .keyError =>
        (st₁, .ok (some (create_call_error mid "FormatViolation"
          ("Missing required field: " ++ e.msg))))
      | .typeError =>
        (st₁, .ok (some (create_call_error mid "TypeConstraintViolation"
          ("Type error: " ++ e.msg))))
      | _ =>
        (st₁, .ok (some (create_call_error mid "InternalError" e.msg)))

/-- A concrete clock snapshot for closed evaluations. -/
def clock0 : Clock := ⟨"2024-01-01T00:00:00+00:00", 1704067200000⟩

/-- A service state with empty managers. -/
def st0 : SvcState := ⟨[], SessionMgr.empty, [], clock0⟩

/-! ## WebSocket connection pool (`websocket_optimizer.py`) -/

/-- The slice of `WebSocketOptimizer` state that `add_connection` and
`remove_connection` read or write: the configured per-pile maximum, the
connection pool (`connection_id -> pile_id`; the `EnhancedConnection`
object itself is transport state), the per-pile connection-id lists, the
per-connection load counters and the two global counters.  Reconnect
tasks and the thread pool are scheduler I/O and are not modelled. -/
structure WSState where
  max_connections_per_pile : Nat
  connections : List (String × String)
  pile_connections : List (String × List String)
  connection_load : List (String × Nat)
  total_connections : Int
  active_connections : Int

/-- `WebSocketOptimizer.remove_connection`: a connection id absent from
the pool is ignored; otherwise the connection is dropped from the pool,
from its pile's list (first occurrence) and from the load map, and the
active counter is decremented. -/
def remove_connection (st : WSState) (connection_id : String) : WSState :=
  match alistGet st.connections connection_id with
  | none => st
  | some pile_id =>
    { st with
      connections := alistDrop st.connections connection_id,
      pile_connections := alistSet st.pile_connections pile_id
        (((alistGet st.pile_connections pile_id).getD []).erase connection_id),
      connection_load := alistDrop st.connection_load connection_id,
      active_connections := st.active_connections - 1 }

/-- `WebSocketOptimizer.add_connection` at clock time `now_ms`
(`connection_id = f"{pile_id}_{int(time.time() * 1000)}"`): when the
pile's list is at or above the limit, remove the list's first (oldest)
id, then admit the new connection; the result is the new connection id
(an `IndexError` can only occur with a zero connection limit). -/
def add_connection (st : WSState) (pile_id : String) (now_ms : Int) :
    WSState × Except PyErr String :=
  let lst := (alistGet st.pile_connections pile_id).getD []
  if lst.length ≥ st.max_connections_per_pile then
    match lst with
    | [] => (st, .error ⟨.indexError, "list index out of range"⟩)
    | oldest :: _ => (add_connection_insert (remove_connection st oldest) pile_id now_ms)
  else (add_connection_insert st pile_id now_ms)
where
  /-- The admission half of `add_connection`: create the id, insert into
  the pool, append to the pile's list, zero the load, bump counters. -/
  add_connection_insert (st : WSState) (pile_id : String) (now_ms : Int) :
      WSState × Except PyErr String :=
    let connection_id := pile_id ++ "_" ++ toString now_ms
    ({ st with
        connections := alistSet st.connections connection_id pile_id,
        pile_connections := alistSet st.pile_connections pile_id
          (((alistGet st.pile_connections pile_id).getD []) ++ [connection_id]),
        connection_load := alistSet st.connection_load connection_id 0,
        total_connections := st.total_connections + 1,
        active_connections := st.active_connections + 1 }, .ok connection_id)

/-- A sequence of `add_connection` calls for one pile at the given clock
times. -/
def add_connection_seq (st : WSState) (pile_id : String) : List Int → WSState
  | [] => st
  | t :: rest => add_connection_seq (add_connection st pile_id t).1 pile_id rest

/-- An optimizer state with an empty pool and a per-pile limit of 2. -/
def ws0 : WSState := ⟨2, [], [], [], 0, 0⟩

/-! ## Discriminators and fixtures used by the theorems -/

/-- Whether a value is a dict (the `isinstance(payload, dict)` check). -/
def Val.isDict : Val → Bool
  | .vdict _ => true
  | _ => false

/-- The error code of a CALLERROR frame, `none` for any other shape
(in particular for a CALLRESULT). -/
def error_code_of (v : Val) : Option String :=
  match v with
  | .vlist [.vint 4, _, .vstr c, _, _] => some c
  | _ => none

/-- The seven pile-initiated actions of the dispatch table (the
`message_handlers` keys that are not `...Response` entries). -/
def pile_initiated_actions : List String :=
  ["BootNotification", "StatusNotification", "StartTransaction", "StopTransaction",
   "Heartbeat", "MeterValues", "Authorize"]

/-- Fixture: a single cumulative-energy sampled value. -/
def energy_sv (v : Val) (u : String) : Val :=
  .vdict [("measurand", .vstr "Energy.Active.Import.Register"),
          ("value", v), ("unit", .vstr u)]

/-- Fixture: one `meterValue` entry carrying exactly `energy_sv v u`. -/
def energy_sample (ts v : Val) (u : String) : Val :=
  .vdict [("timestamp", ts), ("sampledValue", .vlist [energy_sv v u])]

/-- Unit-aware conversion to kWh as the meter loop performs it. -/
def toKwh (u : String) (q : ℚ) : ℚ := if u = "kWh" then q else q / 1000

/-- Fixture: a registered pile with known vendor and model. -/
def pile_acme : PileRec :=
  { charge_point_vendor := .vstr "Acme", charge_point_model := .vstr "X1" }

/-- Fixture: a service state in which pile `P1` is registered. -/
def st_boot : SvcState := ⟨[], SessionMgr.empty, [("P1", pile_acme)], clock0⟩

/-- Fixture: an open charging session under transaction id 42. -/
def sess0 : SessionRec :=
  { session_id := "session_0", pile_id := "P1", connector_id := .vint 1,
    user_id := .vnull, id_tag := .vstr "TAG42", transaction_id := 42,
    start_time := "2024-01-01T00:00:00+00:00", end_time := .vnull,
    meter_start := .vint 0, meter_stop := .vnull,
    status := .charging, stop_reason := .vnull }

/-- Fixture: a session manager holding `sess0`. -/
def mgr0 : SessionMgr :=
  { sessions := [("session_0", sess0)],
    transaction_sessions := [(42, "session_0")],
    pile_sessions := [("P1", ["session_0"])],
    total_sessions := 1, total_energy_delivered := .vfloat 0, uuid_seq := 1 }

/-- Fixture: a service state with one pending `RemoteStartTransaction`
request under message id `m1`. -/
def st_pend : SvcState :=
  ⟨[("m1", ⟨"RemoteStartTransaction", "P1", "2024-01-01T00:00:00+00:00"⟩)],
   SessionMgr.empty, [], clock0⟩

/-! ## Helper lemmas -/

/-- Looking up the key just written returns the written value. -/
theorem alistGet_set_self {κ α : Type} [DecidableEq κ]
    (d : List (κ × α)) (k : κ) (v : α) : alistGet (alistSet d k v) k = some v := by
  induction d with
  | nil => simp [alistGet, alistSet]
  | cons hd tl ih =>
    obtain ⟨k₁, w⟩ := hd
    by_cases h : k₁ = k <;> simp [alistGet, alistSet, h, ih]

/-- The retry loop with fuel `f` starting at any attempt makes at most
`f + 1` operation calls. -/
theorem retryAux_calls_le (op : Nat → OpOutcome) :
    ∀ (f a : Nat), (retryAux op a f).2 ≤ f + 1 := by
  intro f
  induction f with
  | zero =>
    intro a
    cases h : op a <;> simp [retryAux, h]
  | succ f ih =>
    intro a
    cases h : op a <;> simp [retryAux, h] <;> exact ih (a + 1)

/-- A `ValueError` on the very first attempt stops the loop after a
single call. -/
theorem retryAux_invalid_first (op : Nat → OpOutcome) (f a : Nat) (m : String)
    (h : op a = .invalid m) : (retryAux op a f).2 = 1 := by
  cases f <;> simp [retryAux, h]

/-- On a list frame the error-path id expression of `handle_message`
never raises. -/
theorem err_frame_id_list (l : List Val) : ∃ m, err_frame_id (.vlist l) = .ok m := by
  unfold err_frame_id pyLen
  by_cases h : l.length > 1
  · rcases List.get?_eq_get (by omega : 1 < l.length) with hg
    exact ⟨l.get ⟨1, by omega⟩, by simp [h, pyGetIdx, hg]⟩
  · exact ⟨.vstr "unknown", by simp [h]⟩

/-- C1: for every action and zero-argument operation,
`execute_with_retry` calls the operation at most `max_retries + 1` times
(with `max_retries` from the action's retry config, or the default
config for unknown actions), and an operation that raises `ValueError`
on attempt 0 is called exactly once. -/
theorem c1_retry_call_bound (action : String) (op : Nat → OpOutcome) :
    (execute_with_retry action op).2 ≤ (get_retry_config action).max_retries + 1 ∧
    (∀ m, op 0 = .invalid m → (execute_with_retry action op).2 = 1) :=
  ⟨retryAux_calls_le op _ 0, fun m h => retryAux_invalid_first op _ 0 m h⟩

/-- Witness for C1: a `RemoteStartTransaction` operation raising
`ValueError` immediately is called exactly once. -/
theorem c1_retry_call_bound_witness :
    (execute_with_retry "RemoteStartTransaction" (fun _ => .invalid "bad argument")).2 = 1 :=
  (c1_retry_call_bound "RemoteStartTransaction"
    (fun _ => .invalid "bad argument")).2 "bad argument" rfl

/-- C5: for a non-negative base delay, `calculate_delay` is monotone
non-decreasing in the attempt number for the exponential and linear
strategies, and for every strategy the returned delay never exceeds
`max_delay`. -/
theorem c5_backoff_monotone_bounded (b M : ℚ) (hb : 0 ≤ b) :
    (∀ a a' : Nat, a ≤ a' →
      calculate_delay a .exponential_backoff b M ≤
        calculate_delay a' .exponential_backoff b M ∧
      calculate_delay a .linear_backoff b M ≤
        calculate_delay a' .linear_backoff b M) ∧
    (∀ (a : Nat) (s : RetryStrategy), calculate_delay a s b M ≤ M) := by
  constructor
  · intro a a' h
    constructor
    · show min (b * 2 ^ a) M ≤ min (b * 2 ^ a') M
      exact min_le_min
        (mul_le_mul_of_nonneg_left (pow_le_pow_right₀ one_le_two h) hb) le_rfl
    · show min (b * ((a : ℚ) + 1)) M ≤ min (b * ((a' : ℚ) + 1)) M
      have hc : (a : ℚ) ≤ (a' : ℚ) := by exact_mod_cast h
      exact min_le_min (mul_le_mul_of_nonneg_left (by linarith) hb) le_rfl
  · intro a s
    exact min_le_right _ _

/-- Witness for C5: at the `RemoteStartTransaction` config
(base 2, max 30), the delay grows from attempt 0 to attempt 1 and the
fixed strategy stays within the cap. -/
theorem c5_backoff_monotone_bounded_witness :
    calculate_delay 0 .exponential_backoff 2 30 ≤
      calculate_delay 1 .exponential_backoff 2 30 ∧
    calculate_delay 5 .fixed_interval 2 30 ≤ 30 :=
  ⟨((c5_backoff_monotone_bounded 2 30 (by norm_num)).1 0 1 (by norm_num)).1,
   (c5_backoff_monotone_bounded 2 30 (by norm_num)).2 5 .fixed_interval⟩

/-- C7 (code bug): `generate_transaction_id` is neither monotonic nor
collision-free.  At clock time 2147483646 ms it returns 2147483646; at
the strictly later time 2147483648 ms it returns 1, which is smaller,
and which collides with the id generated at time 1 ms (the function
reduces the clock modulo 2147483647). -/
theorem c7_transaction_id_wraps :
    generate_transaction_id 2147483646 = 2147483646 ∧
    generate_transaction_id 2147483648 = 1 ∧
    (2147483646 : Int) < 2147483648 ∧
    generate_transaction_id 2147483648 = generate_transaction_id 1 ∧
    ¬ generate_transaction_id 2147483646 < generate_transaction_id 2147483648 := by
  refine ⟨rfl, rfl, by norm_num, rfl, ?_⟩
  show ¬ (2147483646 : Int) % 2147483647 < (2147483648 : Int) % 2147483647
  norm_num

/-- C2 (amended): no per-action required-field validation precedes
handler execution for pile-initiated CALLs — for every one of the seven
pile-initiated actions and every payload, `handle_call` dispatches
directly to the handler, the response is the handler's CALLRESULT or
(on a handler fault) CALLERROR `InternalError`, and it is never a
CALLERROR `FormatViolation`; in particular a `BootNotification` with
any payload (missing fields included) is answered CALLRESULT
`Accepted`. -/
theorem c2_no_inbound_validation (st : SvcState)
    (pile_id message_id action : String) (payload : List (String × Val))
    (hact : action ∈ pile_initiated_actions) :
    handle_call st pile_id message_id action payload =
      ((dispatch st pile_id action payload).1,
       some (match (dispatch st pile_id action payload).2 with
         | .ok v => create_call_result message_id v
         | .error e =>
           create_call_error (.vstr message_id) "InternalError" e.msg)) ∧
    (∀ r, (handle_call st pile_id message_id action payload).2 = some r →
      error_code_of r ≠ some "FormatViolation") ∧
    (action = "BootNotification" →
      handle_call st pile_id message_id action payload =
        ((handle_boot_notification st pile_id payload).1,
         some (create_call_result message_id
           (.vdict [("status", .vstr "Accepted"),
                    ("currentTime", .vstr st.clock.iso),
                    ("interval", .vint 300)])))) := by
  have hc : message_handlers.contains action = true := by
    simp [pile_initiated_actions] at hact
    rcases hact with rfl | rfl | rfl | rfl | rfl | rfl | rfl <;> decide
  rcases hd : dispatch st pile_id action payload with ⟨st₁, r⟩
  rcases r with e | v
  · have h1 : handle_call st pile_id message_id action payload =
        (st₁, some (create_call_error (.vstr message_id) "InternalError" e.msg)) := by
      unfold handle_call
      rw [if_pos hc, hd]
    refine ⟨h1, ?_, ?_⟩
    · intro r₀ hr
      rw [h1] at hr
      simp only [Option.some.injEq] at hr
      rw [← hr]
      simp [error_code_of, create_call_error]
    · intro hb
      subst hb
      rfl
  · have h1 : handle_call st pile_id message_id action payload =
        (st₁, some (create_call_result message_id v)) := by
      unfold handle_call
      rw [if_pos hc, hd]
    refine ⟨h1, ?_, ?_⟩
    · intro r₀ hr
      rw [h1] at hr
      simp only [Option.some.injEq] at hr
      rw [← hr]
      simp [error_code_of, create_call_result]
    · intro hb
      subst hb
      rfl

/-- Witness for C2: a `BootNotification` CALL with an empty payload
(missing both required fields) executes the handler and is answered
CALLRESULT `Accepted`. -/
theorem c2_no_inbound_validation_witness :
    handle_call st0 "P1" "m1" "BootNotification" [] =
      ((handle_boot_notification st0 "P1" []).1,
       some (create_call_result "m1"
         (.vdict [("status", .vstr "Accepted"),
                  ("currentTime", .vstr st0.clock.iso),
                  ("interval", .vint 300)]))) :=
  (c2_no_inbound_validation st0 "P1" "m1" "BootNotification" []
    (by decide)).2.2 rfl

/-- Counterexample to C2 as stated: a `BootNotification` CALL whose
payload is missing both required fields (`chargePointVendor`,
`chargePointModel`) is answered with a CALLRESULT `Accepted`, not a
CALLERROR `FormatViolation`, and the handler has already executed (the
registered pile's vendor field is overwritten with `None`). -/
theorem c2_missing_field_counterexample :
    (handle_call st_boot "P1" "m1" "BootNotification" []).2 =
      some (create_call_result "m1"
        (.vdict [("status", .vstr "Accepted"),
                 ("currentTime", .vstr clock0.iso), ("interval", .vint 300)])) ∧
    error_code_of (create_call_result "m1"
        (.vdict [("status", .vstr "Accepted"),
                 ("currentTime", .vstr clock0.iso), ("interval", .vint 300)])) = none ∧
    dictGet ([] : List (String × Val)) "chargePointVendor" = none ∧
    (alistGet (handle_call st_boot "P1" "m1" "BootNotification" []).1.piles "P1").map
        (fun p => p.charge_point_vendor) = some Val.vnull ∧
    pile_acme.charge_point_vendor = Val.vstr "Acme" :=
  ⟨rfl, rfl, rfl, rfl, rfl⟩

/-- Counterexample to C3 as stated: the frame `[5, "m1", {}]` fails the
message-type check, but the CALLERROR carries code
`MessageTypeNotSupported`, not `FormatViolation`. -/
theorem c3_type_code_counterexample :
    handle_message st0 "P1" (.vlist [.vint 5, .vstr "m1", .vdict []]) =
      (st0, .ok (some (create_call_error (.vstr "m1")
        "MessageTypeNotSupported" "Invalid message type"))) ∧
    "MessageTypeNotSupported" ≠ "FormatViolation" :=
  ⟨rfl, by decide⟩

/-- C4 (amended): `handle_message` never lets an exception escape for a
*list* frame — it always returns a response or nothing — and a handler
failure during CALL dispatch is converted into a CALLERROR
`InternalError` carrying the failure message.  (A non-sequence input
such as a bare number raises `TypeError` out of `handle_message`; see
the counterexample.) -/
theorem c4_call_failures_contained :
    (∀ (st : SvcState) (pile_id : String) (l : List Val),
      ∃ r, (handle_message st pile_id (.vlist l)).2 = .ok r) ∧
    (∀ (st : SvcState) (pile_id message_id action : String)
        (payload : List (String × Val)) (st₁ : SvcState) (e : PyErr),
      message_handlers.contains action = true →
      dispatch st pile_id action payload = (st₁, .error e) →
      handle_call st pile_id message_id action payload =
        (st₁, some (create_call_error (.vstr message_id) "InternalError" e.msg))) := by
  constructor
  · intro st pile_id l
    obtain ⟨m, hm⟩ := err_frame_id_list l
    rcases h : handle_message_list st pile_id l with ⟨st₁, r⟩
    rcases r with e | r
    · obtain ⟨ek, em⟩ := e
      cases ek
      case typeError =>
        exact ⟨some (create_call_error m "TypeConstraintViolation"
          ("Type error: " ++ em)), by simp [handle_message, h, hm]⟩
      case keyError =>
        exact ⟨some (create_call_error m "FormatViolation"
          ("Missing required field: " ++ em)), by simp [handle_message, h, hm]⟩
      all_goals
        exact ⟨some (create_call_error m "InternalError" em),
          by simp [handle_message, h, hm]⟩
    · exact ⟨r, by simp [handle_message, h]⟩
  · intro st pile_id message_id action payload st₁ e hc hd
    unfold handle_call
    rw [if_pos hc, hd]

/-- Witness for C4: a `StartTransaction` CALL with an empty payload
makes the handler raise (`None.replace` on the missing timestamp), and
`handle_call` converts that failure into a CALLERROR `InternalError`
carrying the failure message. -/
theorem c4_call_failures_contained_witness :
    handle_call st0 "P1" "m1" "StartTransaction" [] =
      ({ st0 with session_mgr := { SessionMgr.empty with uuid_seq := 1 } },
       some (create_call_error (.vstr "m1") "InternalError"
         (sq ++ "NoneType" ++ sq ++ " object has no attribute " ++
           sq ++ "replace" ++ sq))) :=
  c4_call_failures_contained.2 st0 "P1" "m1" "StartTransaction" [] _ _ rfl rfl

/-- Counterexample to C4 as stated: on the non-sequence input `5`,
`handle_message` raises `TypeError` (the `except` clauses re-evaluate
`len(message)` and the exception escapes), so it does not return a
response or nil for *any* input value. -/
theorem c4_nonlist_raises_counterexample :
    handle_message st0 "P1" (.vint 5) =
      (st0, .error ⟨.typeError,
        "object of type " ++ sq ++ "int" ++ sq ++ " has no len()"⟩) := rfl

/-- C9: a `StopTransaction` CALL whose transaction id resolves to no
session is answered `{idTagInfo: {status: Invalid}}` and the whole
service state — in particular the process-wide total-energy-delivered
accumulator — is unchanged. -/
theorem c9_stop_unknown_transaction (st : SvcState) (pile_id : String)
    (payload : List (String × Val))
    (h : get_session_by_transaction st.session_mgr
      (dictGetD payload "transactionId" .vnull) = none) :
    handle_stop_transaction st pile_id payload =
      (st, .ok (.vdict [("idTagInfo", .vdict [("status", .vstr "Invalid")])])) := by
  simp [handle_stop_transaction, end_session_by_transaction, h]

/-- Witness for C9: stopping unknown transaction 999 on the empty state
returns `Invalid` and leaves the state untouched. -/
theorem c9_stop_unknown_transaction_witness :
    handle_stop_transaction st0 "P1" [("transactionId", .vint 999)] =
      (st0, .ok (.vdict [("idTagInfo", .vdict [("status", .vstr "Invalid")])])) :=
  c9_stop_unknown_transaction st0 "P1" [("transactionId", .vint 999)] rfl

/-- C10: an inbound CALLRESULT matching a pending engine-initiated
request (`RemoteStartTransaction`, `RemoteStopTransaction`, `Reset` or
`UnlockConnector`) pops that entry, returns nothing, and invokes no
`...Response` handler: the dispatch guard tests the stored base action
name against a table whose engine-operation keys are only the
`...Response` names. -/
theorem c10_call_result_no_handler (st : SvcState) (pile_id message_id : String)
    (payload : List (String × Val)) (req : PendingReq)
    (hreq : alistGet st.pending_requests message_id = some req)
    (hact : req.action = "RemoteStartTransaction" ∨
            req.action = "RemoteStopTransaction" ∨
            req.action = "Reset" ∨ req.action = "UnlockConnector") :
    handle_call_result st pile_id message_id payload =
      ({ st with pending_requests := alistDrop st.pending_requests message_id },
       .ok none, []) := by
  simp only [handle_call_result, hreq]
  rcases hact with h | h | h | h <;> rw [h] <;> rfl

/-- Witness for C10: a CALLRESULT for the pending
`RemoteStartTransaction` request `m1` pops the entry, returns nothing
and invokes no handler. -/
theorem c10_call_result_no_handler_witness :
    handle_call_result st_pend "P1" "m1" [] =
      ({ st_pend with pending_requests := alistDrop st_pend.pending_requests "m1" },
       .ok none, []) :=
  c10_call_result_no_handler st_pend "P1" "m1" []
    ⟨"RemoteStartTransaction", "P1", "2024-01-01T00:00:00+00:00"⟩ rfl (Or.inl rfl)

/-- C8 (code bug): with a per-pile limit of 2 and adds at clock
milliseconds 1000, 1000, 2000, 3000 (the first two collide into the same
connection id `P_1000`), the pile's connection registry grows to three
entries — the eviction at the limit removed nothing because the oldest
registered id had become stale — and after one more add the pool holds
three live connections, all exceeding the limit. -/
theorem c8_connection_limit_violated :
    ws0.max_connections_per_pile = 2 ∧
    (alistGet (add_connection_seq ws0 "P" [1000, 1000, 2000, 3000]).pile_connections
        "P").getD [] = ["P_1000", "P_2000", "P_3000"] ∧
    (add_connection_seq ws0 "P" [1000, 1000, 2000, 3000, 4000]).connections
      = [("P_2000", "P"), ("P_3000", "P"), ("P_4000", "P")] :=
  ⟨rfl, rfl, rfl⟩

/-- C3 (amended): every enumerated structural-validation failure on a
list frame is answered with a CALLERROR and leaves the state unchanged.
The code is `FormatViolation` for a short frame, a blank or non-string
message id, a CALL frame of the wrong length, a blank or non-string
action, or a non-mapping payload; a message type outside `{2, 3, 4}`
(reached once the message id is valid) is instead answered with code
`MessageTypeNotSupported`. -/
theorem c3_structural_failures (st : SvcState) (pile_id : String) (l : List Val) :
    (l.length < 3 →
      handle_message st pile_id (.vlist l) = (st, .ok (some (create_call_error
        (if l.length > 1 then l.getD 1 .vnull else .vstr "unknown")
        "FormatViolation" "Invalid message format")))) ∧
    (¬ l.length < 3 → strip_nonempty (l.getD 1 .vnull) = false →
      handle_message st pile_id (.vlist l) = (st, .ok (some (create_call_error
        (mid_fallback (l.getD 1 .vnull)) "FormatViolation" "Invalid message ID")))) ∧
    (¬ l.length < 3 → strip_nonempty (l.getD 1 .vnull) = true →
      message_type_ok (l.getD 0 .vnull) = false →
      handle_message st pile_id (.vlist l) = (st, .ok (some (create_call_error
        (.vstr (asStr (l.getD 1 .vnull)))
        "MessageTypeNotSupported" "Invalid message type")))) ∧
    (¬ l.length < 3 → strip_nonempty (l.getD 1 .vnull) = true →
      l.getD 0 .vnull = .vint 2 → l.length ≠ 4 →
      handle_message st pile_id (.vlist l) = (st, .ok (some (create_call_error
        (.vstr (asStr (l.getD 1 .vnull)))
        "FormatViolation" "Invalid CALL message format")))) ∧
    (¬ l.length < 3 → strip_nonempty (l.getD 1 .vnull) = true →
      l.getD 0 .vnull = .vint 2 → l.length = 4 →
      strip_nonempty (l.getD 2 .vnull) = false →
      handle_message st pile_id (.vlist l) = (st, .ok (some (create_call_error
        (.vstr (asStr (l.getD 1 .vnull))) "FormatViolation" "Invalid action")))) ∧
    (¬ l.length < 3 → strip_nonempty (l.getD 1 .vnull) = true →
      l.getD 0 .vnull = .vint 2 → l.length = 4 →
      strip_nonempty (l.getD 2 .vnull) = true →
      (l.getD 3 .vnull).isDict = false →
      handle_message st pile_id (.vlist l) = (st, .ok (some (create_call_error
        (.vstr (asStr (l.getD 1 .vnull)))
        "FormatViolation" "Invalid payload format")))) := by
  have lift : ∀ (st₁ : SvcState) (r : Option Val),
      handle_message_list st pile_id l = (st₁, .ok r) →
      handle_message st pile_id (.vlist l) = (st₁, .ok r) := by
    intro st₁ r h
    simp [handle_message, h]
  refine ⟨fun h3 => lift _ _ ?_, fun h3 hmid => lift _ _ ?_,
          fun h3 hmid htype => lift _ _ ?_,
          fun h3 hmid h2 h4 => lift _ _ ?_,
          fun h3 hmid h2 h4 hact => lift _ _ ?_,
          fun h3 hmid h2 h4 hact hdict => lift _ _ ?_⟩
  · unfold handle_message_list
    rw [if_pos h3]
  · unfold handle_message_list
    rw [if_neg h3]
    simp only [List.getD_eq_getElem?_getD] at hmid
    simp [hmid]
  · unfold handle_message_list
    rw [if_neg h3]
    simp only [List.getD_eq_getElem?_getD] at hmid htype
    simp [hmid, htype]
  · unfold handle_message_list
    rw [if_neg h3]
    simp only [List.getD_eq_getElem?_getD] at hmid h2
    simp [hmid, h2, h4, message_type_ok]
  · unfold handle_message_list
    rw [if_neg h3]
    simp only [List.getD_eq_getElem?_getD] at hmid h2 hact
    simp [h4] at hmid h2 hact
    simp [hmid, h2, h4, hact, message_type_ok]
  · unfold handle_message_list
    rw [if_neg h3]
    simp only [List.getD_eq_getElem?_getD] at hmid h2 hact hdict
    rcases hp : l[3]?.getD .vnull with _ | b | n | q | s | ll | d
    case vdict => rw [hp] at hdict; simp [Val.isDict] at hdict
    all_goals simp [h4] at hmid h2 hact hp
    all_goals simp [hmid, h2, h4, hact, hp, message_type_ok]

/-- Witness for C3: the CALL frame `[2, "m1", "BootNotification", null]`
has a non-mapping payload and is answered with CALLERROR
`FormatViolation`, state unchanged. -/
theorem c3_structural_failures_witness :
    handle_message st0 "P1"
        (.vlist [.vint 2, .vstr "m1", .vstr "BootNotification", .vnull]) =
      (st0, .ok (some (create_call_error (.vstr "m1")
        "FormatViolation" "Invalid payload format"))) :=
  (c3_structural_failures st0 "P1"
      [.vint 2, .vstr "m1", .vstr "BootNotification", .vnull]).2.2.2.2.2
    (by decide) rfl rfl rfl rfl rfl

/-- On this meter-entry fixture, one pass of the outer meter loop
appends the record, overwrites `energy_delivered` with the unit-converted
absolute value and recomputes the cost. -/
theorem apply_energy_sample (s : SessionRec) (ts v : Val) (u : String) (q p : ℚ)
    (hval : pyFloat v = .ok q) (hprice : s.price_per_kwh = .vfloat p)
    (hunit : u = "kWh" ∨ u = "Wh") :
    apply_meter_value s (energy_sample ts v u) =
      ({ s with meter_values := s.meter_values ++ [⟨ts, .vlist [energy_sv v u]⟩],
                energy_delivered := .vfloat (toKwh u q),
                cost := .vfloat (toKwh u q * p) }, .ok ()) := by
  rcases hunit with h | h <;> subst h <;>
    simp [apply_meter_value, apply_sampled_values, apply_sampled_value,
          energy_sample, energy_sv, pyDictGetD, dictGetD, dictGet, pyIter,
          hval, hprice, pyEq, pyMul, pyArith, pyNum, isFloatV, toKwh]

/-- Re-resolving a transaction id after its session record has been
overwritten yields the overwritten record. -/
theorem get_session_set (mgr : SessionMgr) (txn : Val) (sid : String)
    (s s₁ : SessionRec)
    (hfind : get_session_by_transaction mgr txn = some (sid, s)) :
    get_session_by_transaction
      { mgr with sessions := alistSet mgr.sessions sid s₁ } txn = some (sid, s₁) := by
  unfold get_session_by_transaction at hfind ⊢
  rcases htk : txnKey txn with _ | n
  · rw [htk] at hfind
    simp at hfind
  · rw [htk] at hfind
    replace hfind : (match alistGet mgr.transaction_sessions n with
      | none => none
      | some sid₂ => (alistGet mgr.sessions sid₂).map (fun r => (sid₂, r)))
        = some (sid, s) := hfind
    show (match alistGet mgr.transaction_sessions n with
      | none => none
      | some sid₂ => (alistGet (alistSet mgr.sessions sid s₁) sid₂).map
          (fun r => (sid₂, r))) = some (sid, s₁)
    rcases hts : alistGet mgr.transaction_sessions n with _ | sid₁
    · rw [hts] at hfind
      simp at hfind
    · rw [hts] at hfind
      replace hfind : (alistGet mgr.sessions sid₁).map (fun r => (sid₁, r))
        = some (sid, s) := hfind
      show (alistGet (alistSet mgr.sessions sid s₁) sid₁).map (fun r => (sid₁, r))
        = some (sid, s₁)
      rcases hs : alistGet mgr.sessions sid₁ with _ | s₂
      · rw [hs] at hfind
        simp at hfind
      · rw [hs] at hfind
        simp at hfind
        obtain ⟨rfl, rfl⟩ := hfind
        simp [alistGet_set_self]

/-- C6: replaying the identical cumulative Energy meter sample through
`update_meter_values` is idempotent on the session's `energy_delivered`
and `cost`: the second application leaves both exactly as after the
first (energy is an absolute assignment and cost a full recompute). -/
theorem c6_meter_replay_idempotent (mgr : SessionMgr) (txn ts v : Val) (u : String)
    (sid : String) (s : SessionRec) (q p : ℚ)
    (hfind : get_session_by_transaction mgr txn = some (sid, s))
    (hval : pyFloat v = .ok q)
    (hunit : u = "kWh" ∨ u = "Wh")
    (hprice : s.price_per_kwh = .vfloat p) :
    ∃ s₁ s₂,
      alistGet (update_meter_values mgr txn
          (.vlist [energy_sample ts v u])).1.sessions sid = some s₁ ∧
      alistGet (update_meter_values
          (update_meter_values mgr txn (.vlist [energy_sample ts v u])).1
          txn (.vlist [energy_sample ts v u])).1.sessions sid = some s₂ ∧
      s₂.energy_delivered = s₁.energy_delivered ∧
      s₂.cost = s₁.cost := by
  set s₁ : SessionRec :=
    { s with meter_values := s.meter_values ++ [⟨ts, .vlist [energy_sv v u]⟩],
             energy_delivered := .vfloat (toKwh u q),
             cost := .vfloat (toKwh u q * p) } with hs₁
  set s₂ : SessionRec :=
    { s₁ with meter_values := s₁.meter_values ++ [⟨ts, .vlist [energy_sv v u]⟩],
              energy_delivered := .vfloat (toKwh u q),
              cost := .vfloat (toKwh u q * p) } with hs₂
  have h₁ : update_meter_values mgr txn (.vlist [energy_sample ts v u]) =
      ({ mgr with sessions := alistSet mgr.sessions sid s₁ }, .ok ()) := by
    unfold update_meter_values
    rw [hfind]
    simp [pyIter, apply_meter_values, hs₁,
      apply_energy_sample s ts v u q p hval hprice hunit]
  have hprice₁ : s₁.price_per_kwh = .vfloat p := hprice
  have hfind₂ : get_session_by_transaction
      { mgr with sessions := alistSet mgr.sessions sid s₁ } txn = some (sid, s₁) :=
    get_session_set mgr txn sid s s₁ hfind
  have h₂ : update_meter_values
      { mgr with sessions := alistSet mgr.sessions sid s₁ } txn
      (.vlist [energy_sample ts v u]) =
      ({ mgr with sessions := alistSet (alistSet mgr.sessions sid s₁) sid s₂ },
       .ok ()) := by
    unfold update_meter_values
    rw [hfind₂]
    simp [pyIter, apply_meter_values, hs₂,
      apply_energy_sample s₁ ts v u q p hval hprice₁ hunit]
  refine ⟨s₁, s₂, ?_, ?_, rfl, rfl⟩
  · rw [h₁]
    exact alistGet_set_self mgr.sessions sid s₁
  · rw [h₁, h₂]
    exact alistGet_set_self (alistSet mgr.sessions sid s₁) sid _

/-- Witness for C6: replaying a 5 Wh cumulative-energy sample on the
session open under transaction 42 leaves energy and cost unchanged. -/
theorem c6_meter_replay_idempotent_witness :
    ∃ s₁ s₂,
      alistGet (update_meter_values mgr0 (.vint 42)
          (.vlist [energy_sample (.vstr "t0") (.vfloat 5) "Wh"])).1.sessions
        "session_0" = some s₁ ∧
      alistGet (update_meter_values
          (update_meter_values mgr0 (.vint 42)
            (.vlist [energy_sample (.vstr "t0") (.vfloat 5) "Wh"])).1
          (.vint 42) (.vlist [energy_sample (.vstr "t0") (.vfloat 5) "Wh"])).1.sessions
        "session_0" = some s₂ ∧
      s₂.energy_delivered = s₁.energy_delivered ∧
      s₂.cost = s₁.cost :=
  c6_meter_replay_idempotent mgr0 (.vint 42) (.vstr "t0") (.vfloat 5) "Wh"
    "session_0" sess0 5 (3 / 2) rfl rfl (Or.inr rfl) rfl

end SmartCharging
